import Mathlib

/-!
Client-side form controller of the student-result pages (`static/script.js`).

A shallow embedding of the three event handlers of `static/script.js`:

* the click handler of `#generateSubjectsBtn` (row generator),
* the click handler of `#calculateBtn` (score aggregator),
* the five-second timer callback that closes the `.alert` banners.

Modelling conventions.

* A JavaScript number is an exact rational; `none : Option ℚ` stands for `NaN`.
  Binary rounding, overflow to `Infinity` and the sign of zero are outside the model.
* The text of a form field is represented by what the built-in readers `parseFloat` and
  `parseInt` return on it, since the script observes field texts in no other way.
* An uncaught exception ends the handler that raised it; handlers that can raise
  return `Except`.
-/

namespace StudentResult

/-! ## Field texts and displayed values -/

/-- The text of a form field, seen through the built-in readers: `parseFloat` is the
result of `parseFloat(text)` and `parseInt` the result of `parseInt(text)`, with `none`
for `NaN` (empty text, or text without a numeric beginning). -/
structure FieldValue where
  parseFloat : Option ℚ
  parseInt : Option ℤ
  deriving DecidableEq

/-- The empty text `""`: both readers return `NaN`. -/
def FieldValue.empty : FieldValue := ⟨none, none⟩

/-- A field whose text is a plain decimal literal of value `q`: `parseFloat` reads `q`
and `parseInt` reads the integer beginning, which is `q` truncated toward zero. -/
def FieldValue.ofRat (q : ℚ) : FieldValue :=
  ⟨some q, some (if 0 ≤ q then ⌊q⌋ else ⌈q⌉)⟩

/-- What an output field shows after `el.value = v`. -/
inductive Display
  /-- The characters of a string value. -/
  | str (s : String)
  /-- The characters `Number::toString(x)` of a number value. -/
  | num (x : ℚ)
  deriving DecidableEq

/-! ## JavaScript operators used by the handlers -/

/-- The expression `x || 0` on a number: `NaN` and `0` are falsy. -/
def orZero : Option ℚ → ℚ
  | none => 0
  | some q => if q = 0 then 0 else q

/-- The expression `!count` on a number: true for `NaN` and for `0`. -/
def jsNot : Option ℤ → Bool
  | none => true
  | some n => decide (n = 0)

/-- The comparison `count < k` on a number: false when `count` is `NaN`. -/
def jsLt : Option ℤ → ℤ → Bool
  | none, _ => false
  | some n, k => decide (n < k)

/-- Digit string of `n` padded on the left with zeros to at least three characters
(steps 11.b and 11.c.ii of `Number.prototype.toFixed` with two fraction digits). -/
def paddedDigits (n : ℕ) : List Char :=
  let m := Nat.toDigits 10 n
  List.replicate (3 - m.length) '0' ++ m

/-- The integer `n` for which `n / 100 - x` is closest to zero, the larger one on a tie
(step 11.a of `toFixed`), for `x ≥ 0`. -/
def nearestHundredth (x : ℚ) : ℕ := ⌊x * 100 + 1 / 2⌋.toNat

/-- The method call `x.toFixed(2)`. From `10^21` on the result is `Number::toString`. -/
def toFixed2 (x : ℚ) : Display :=
  let s := if x < 0 then "-" else ""
  let y := if x < 0 then -x else x
  if (10 : ℚ) ^ 21 ≤ y then Display.num x
  else
    let m := paddedDigits (nearestHundredth y)
    let k := m.length
    Display.str (s ++ String.mk (m.take (k - 2)) ++ "." ++ String.mk (m.drop (k - 2)))

/-! ## Document model -/

/-- A form control inside a table cell, with the attributes the script relies on. -/
structure Element where
  tag : String
  type : String
  name : String
  classes : List String
  value : FieldValue
  deriving DecidableEq

/-- A table row `<tr>`: the controls of its cells, in document order. -/
structure Tr where
  cells : List Element
  deriving DecidableEq

/-- What the user has typed into one subject row. -/
structure SubjectRow where
  name : FieldValue
  obtained : FieldValue
  total : FieldValue
  deriving DecidableEq

/-- Lines 20-25: the row fragment of the generator, holding the given field texts. -/
def SubjectRow.toTr (r : SubjectRow) : Tr :=
  ⟨[⟨"input", "text", "subject_name[]", ["form-control"], r.name⟩,
    ⟨"input", "number", "obtained[]", ["form-control", "obtained"], r.obtained⟩,
    ⟨"input", "number", "total[]", ["form-control", "total"], r.total⟩,
    ⟨"button", "button", "", ["btn", "btn-sm", "btn-outline-danger", "remove-row"],
      FieldValue.empty⟩]⟩

/-- The row fragment as the generator writes it: every field empty. -/
def rowTemplate : Tr := SubjectRow.toTr ⟨FieldValue.empty, FieldValue.empty, FieldValue.empty⟩

/-- The part of the page the script reads and writes. -/
structure Page where
  /-- The field `#subjectCount`. -/
  subjectCount : FieldValue
  /-- The children of the container `#subjectRows`. -/
  subjectRows : List Tr
  /-- The output field `#totalObtained`. -/
  totalObtained : Display
  /-- The output field `#totalMarks`. -/
  totalMarks : Display
  /-- The output field `#percentage`. -/
  percentage : Display
  /-- The output field `#grade`. -/
  grade : Display
  /-- The messages shown by `alert`, oldest first. -/
  alerts : List String
  deriving DecidableEq

/-- The call `document.querySelectorAll('.' + cls)`: the controls carrying the class, in
document order. The controls of the page are those of the row container. -/
def querySelectorAll (cls : String) (p : Page) : List Element :=
  ((p.subjectRows.map Tr.cells).flatten).filter (fun e => decide (cls ∈ e.classes))

/-- An uncaught exception. -/
inductive JSError
  /-- Reading a property of `undefined`. -/
  | typeError (index : ℕ)
  /-- An exception raised by a banner's close action. -/
  | closeFailed (banner : ℕ)
  deriving DecidableEq

/-! ## Row generator -/

/-- Line 14: the text of the validation alert. -/
def invalidCountMessage : String := "Please enter a valid number of subjects (at least 1)."

/-- Lines 17-27: the loop `for (let i = 0; i < count; i++) html += row`; the markup is
kept as the sequence of its row fragments. The test `i < count` fails for `NaN`. -/
def buildRows : Option ℤ → List Tr
  | none => []
  | some count => (List.range count.toNat).foldl (fun html _ => html ++ [rowTemplate]) []

/-- Lines 11-29: the click handler of `#generateSubjectsBtn`. -/
def generateClick (p : Page) : Page :=
  let count := p.subjectCount.parseInt
  if jsNot count || jsLt count 1 then
    { p with alerts := p.alerts ++ [invalidCountMessage] }
  else
    { p with subjectRows := buildRows count }

/-! ## Score aggregator -/

/-- Lines 70-77: the grade chain, first match wins. -/
def gradeOf (percentage : ℚ) : String :=
  if percentage ≥ 90 then "A+"
  else if percentage ≥ 80 then "A"
  else if percentage ≥ 70 then "B"
  else if percentage ≥ 60 then "C"
  else if percentage ≥ 50 then "D"
  else if percentage > 0 then "F"
  else "N/A"

/-- Lines 64-67: the percentage, guarded by `totalMarks > 0`. -/
def percentageOf (totalObtained totalMarks : ℚ) : ℚ :=
  if totalMarks > 0 then (totalObtained / totalMarks) * 100 else 0

/-- Lines 54-59: the accumulation loop from index `i` on, over the remaining
obtained-inputs. `totalInputs[i]` is `undefined` past the end of `totalInputs`, and
reading its `value` raises. -/
def accumulate (totalInputs : List Element) :
    List Element → ℕ → ℚ × ℚ → Except JSError (ℚ × ℚ)
  | [], _, sums => Except.ok sums
  | o :: rest, i, (totalObtained, totalMarks) =>
    match totalInputs[i]? with
    | none => Except.error (JSError.typeError i)
    | some t =>
      let obt := orZero o.value.parseFloat
      let tot := orZero t.value.parseFloat
      accumulate totalInputs rest (i + 1) (totalObtained + obt, totalMarks + tot)

/-- The local variables of the calculate handler when it reaches line 78. -/
structure Aggregate where
  totalObtained : ℚ
  totalMarks : ℚ
  percentage : ℚ
  grade : String
  deriving DecidableEq

/-- Lines 51-77: sums, percentage and grade from the two collections of inputs. -/
def aggregate (obtainedInputs totalInputs : List Element) : Except JSError Aggregate :=
  match accumulate totalInputs obtainedInputs 0 (0, 0) with
  | Except.error e => Except.error e
  | Except.ok (totalObtained, totalMarks) =>
    let percentage := percentageOf totalObtained totalMarks
    Except.ok ⟨totalObtained, totalMarks, percentage, gradeOf percentage⟩

/-- Lines 61, 62, 68 and 78: the four assignments to the output fields. -/
def writeOutputs (p : Page) (a : Aggregate) : Page :=
  { p with
    totalObtained := Display.num a.totalObtained
    totalMarks := Display.num a.totalMarks
    percentage := toFixed2 a.percentage
    grade := Display.str a.grade }

/-- Lines 47-79: the click handler of `#calculateBtn`. -/
def calculateClick (p : Page) : Except JSError Page :=
  match aggregate (querySelectorAll "obtained" p) (querySelectorAll "total" p) with
  | Except.error e => Except.error e
  | Except.ok a => Except.ok (writeOutputs p a)

/-- The page after a click on `#calculateBtn`: an exception leaves the handler before
any output field is written, so the page is then as it was. -/
def afterCalculate (p : Page) : Page :=
  match calculateClick p with
  | Except.error _ => p
  | Except.ok q => q

/-- A page whose row container holds the given subject rows. -/
def Page.withRows (p : Page) (rows : List SubjectRow) : Page :=
  { p with subjectRows := rows.map SubjectRow.toTr }

/-- An `.alert` element present when the timer fires; `closeThrows` tells whether
`new bootstrap.Alert(el).close()` raises on it. -/
structure Banner where
  ident : ℕ
  closeThrows : Bool
  deriving DecidableEq

/-- Lines 91-95: `alerts.forEach(...)`. Returns the banners on which the close action
was invoked, in order, and the exception that ended the callback, if any. No handler
surrounds the call, so an exception leaves `forEach`. -/
def closeAll : List Banner → List ℕ × Option JSError
  | [] => ([], none)
  | b :: rest =>
    if b.closeThrows then ([b.ident], some (JSError.closeFailed b.ident))
    else ((closeAll rest).1.cons b.ident, (closeAll rest).2)

/-! ## Vocabulary of the statements -/

/-- The number a control contributes to a sum: `parseFloat(el.value) || 0`. -/
def contribution (e : Element) : ℚ := orZero e.value.parseFloat

/-- The sum of what the obtained fields of the rows contribute. -/
def sumObtained (rows : List SubjectRow) : ℚ :=
  (rows.map (fun r => orZero r.obtained.parseFloat)).sum

/-- The sum of what the total fields of the rows contribute. -/
def sumTotal (rows : List SubjectRow) : ℚ :=
  (rows.map (fun r => orZero r.total.parseFloat)).sum

theorem accumulate_from (os : List Element) :
    ∀ (before ts : List Element) (sums : ℚ × ℚ), os.length = ts.length →
      accumulate (before ++ ts) os before.length sums =
        Except.ok (sums.1 + (os.map contribution).sum, sums.2 + (ts.map contribution).sum) := by
  induction os with
  | nil =>
    intro before ts sums h
    cases ts with
    | nil => simp [accumulate]
    | cons t ts => simp at h
  | cons o os ih =>
    intro before ts sums h
    cases ts with
    | nil => simp at h
    | cons t ts =>
      obtain ⟨a, b⟩ := sums
      have hlen : os.length = ts.length := by simpa using h
      have hget : (before ++ t :: ts)[before.length]? = some t := by
        rw [List.getElem?_append_right (le_refl _)]
        simp
      have hstep := ih (before ++ [t]) ts (a + contribution o, b + contribution t) hlen
      simp only [List.append_assoc, List.singleton_append, List.length_append,
        List.length_singleton] at hstep
      simp only [accumulate, hget, List.map_cons, List.sum_cons]
      rw [show orZero o.value.parseFloat = contribution o from rfl,
        show orZero t.value.parseFloat = contribution t from rfl, hstep]
      simp only [add_assoc]

theorem aggregate_eq (os ts : List Element) (h : os.length = ts.length) :
    aggregate os ts =
      Except.ok ⟨(os.map contribution).sum, (ts.map contribution).sum,
        percentageOf (os.map contribution).sum (ts.map contribution).sum,
        gradeOf (percentageOf (os.map contribution).sum (ts.map contribution).sum)⟩ := by
  have h0 := accumulate_from os [] ts (0, 0) h
  simp only [List.nil_append, List.length_nil, zero_add] at h0
  simp only [aggregate, h0]

theorem querySelectorAll_obtained (p : Page) (rows : List SubjectRow) :
    querySelectorAll "obtained" (p.withRows rows) =
      rows.map (fun r => ⟨"input", "number", "obtained[]", ["form-control", "obtained"],
        r.obtained⟩) := by
  unfold querySelectorAll Page.withRows
  induction rows with
  | nil => rfl
  | cons r rows ih =>
    simp only [List.map_cons, List.flatten_cons, List.filter_append] at ih ⊢
    rw [ih]
    simp [SubjectRow.toTr]

theorem querySelectorAll_total (p : Page) (rows : List SubjectRow) :
    querySelectorAll "total" (p.withRows rows) =
      rows.map (fun r => ⟨"input", "number", "total[]", ["form-control", "total"],
        r.total⟩) := by
  unfold querySelectorAll Page.withRows
  induction rows with
  | nil => rfl
  | cons r rows ih =>
    simp only [List.map_cons, List.flatten_cons, List.filter_append] at ih ⊢
    rw [ih]
    simp [SubjectRow.toTr]

theorem aggregate_withRows (p : Page) (rows : List SubjectRow) :
    aggregate (querySelectorAll "obtained" (p.withRows rows))
        (querySelectorAll "total" (p.withRows rows)) =
      Except.ok ⟨sumObtained rows, sumTotal rows,
        percentageOf (sumObtained rows) (sumTotal rows),
        gradeOf (percentageOf (sumObtained rows) (sumTotal rows))⟩ := by
  rw [querySelectorAll_obtained, querySelectorAll_total, aggregate_eq _ _ (by simp)]
  simp [sumObtained, sumTotal, contribution, Function.comp_def]

theorem calculateClick_withRows (p : Page) (rows : List SubjectRow) :
    calculateClick (p.withRows rows) =
      Except.ok (writeOutputs (p.withRows rows) ⟨sumObtained rows, sumTotal rows,
        percentageOf (sumObtained rows) (sumTotal rows),
        gradeOf (percentageOf (sumObtained rows) (sumTotal rows))⟩) := by
  simp only [calculateClick, aggregate_withRows]

theorem buildRows_eq_replicate (n : ℕ) :
    (List.range n).foldl (fun html _ => html ++ [rowTemplate]) [] =
      List.replicate n rowTemplate := by
  induction n with
  | zero => rfl
  | succ n ih =>
    rw [List.range_succ, List.foldl_append, ih]
    simp only [List.foldl_cons, List.foldl_nil]
    rw [List.replicate_succ']

theorem generateClick_accept (p : Page) (c : ℤ) (hp : p.subjectCount.parseInt = some c)
    (hc : 1 ≤ c) :
    generateClick p = { p with subjectRows := List.replicate c.toNat rowTemplate } := by
  have h0 : c ≠ 0 := by omega
  have h1 : ¬ c < 1 := by omega
  simp [generateClick, hp, jsNot, jsLt, h0, h1, buildRows, buildRows_eq_replicate]

theorem generateClick_reject (p : Page)
    (h : p.subjectCount.parseInt = none ∨ ∃ n, p.subjectCount.parseInt = some n ∧ n < 1) :
    generateClick p = { p with alerts := p.alerts ++ [invalidCountMessage] } := by
  rcases h with h | ⟨n, h, hn⟩
  · simp [generateClick, h, jsNot]
  · simp [generateClick, h, jsNot, jsLt, hn]

theorem closeAll_of_no_failure (bs : List Banner) (h : ∀ x ∈ bs, x.closeThrows = false) :
    closeAll bs = (bs.map Banner.ident, none) := by
  induction bs with
  | nil => rfl
  | cons b bs ih =>
    have hb : b.closeThrows = false := h b (List.mem_cons_self _ _)
    have hrest := ih (fun x hx => h x (List.mem_cons_of_mem _ hx))
    simp [closeAll, hb, hrest]

theorem closeAll_first_failure (before : List Banner) (b : Banner) (after : List Banner)
    (h : ∀ x ∈ before, x.closeThrows = false) (hb : b.closeThrows = true) :
    closeAll (before ++ b :: after) =
      ((before ++ [b]).map Banner.ident, some (JSError.closeFailed b.ident)) := by
  induction before with
  | nil => simp [closeAll, hb]
  | cons c before ih =>
    have hc : c.closeThrows = false := h c (List.mem_cons_self _ _)
    have hrest := ih (fun x hx => h x (List.mem_cons_of_mem _ hx))
    simp [closeAll, hc, hrest]

end StudentResult

open StudentResult

/-! ## Properties of the handlers -/

/-- C1: the grade is a first-match-wins threshold lookup on the unrounded percentage:
"A+" exactly from 90 up, "A" exactly on [80, 90), "B" on [70, 80), "C" on [60, 70),
"D" on [50, 60), "F" on (0, 50) and "N/A" exactly for the rest (values at most 0);
a boundary belongs to the higher grade (90 gives "A+", 0 gives "N/A", 2 gives "F");
and the grade the calculate handler writes is this lookup at the unrounded percentage. -/
theorem grade_threshold_lookup (x : ℚ) (p : Page) (rows : List SubjectRow) :
    (gradeOf x = "A+" ↔ 90 ≤ x) ∧
    (gradeOf x = "A" ↔ 80 ≤ x ∧ x < 90) ∧
    (gradeOf x = "B" ↔ 70 ≤ x ∧ x < 80) ∧
    (gradeOf x = "C" ↔ 60 ≤ x ∧ x < 70) ∧
    (gradeOf x = "D" ↔ 50 ≤ x ∧ x < 60) ∧
    (gradeOf x = "F" ↔ 0 < x ∧ x < 50) ∧
    (gradeOf x = "N/A" ↔ x ≤ 0) ∧
    gradeOf 90 = "A+" ∧ gradeOf 0 = "N/A" ∧ gradeOf 2 = "F" ∧
    ∃ q, calculateClick (p.withRows rows) = Except.ok q ∧
      q.grade = Display.str (gradeOf (percentageOf (sumObtained rows) (sumTotal rows))) := by
  refine ⟨?_, ?_, ?_, ?_, ?_, ?_, ?_, ?_, ?_, ?_, ?_⟩
  · unfold gradeOf; split_ifs <;> simp <;> linarith
  · unfold gradeOf; split_ifs <;> simp <;> first | linarith | (intro; linarith) | (constructor <;> linarith)
  · unfold gradeOf; split_ifs <;> simp <;> first | linarith | (intro; linarith) | (constructor <;> linarith)
  · unfold gradeOf; split_ifs <;> simp <;> first | linarith | (intro; linarith) | (constructor <;> linarith)
  · unfold gradeOf; split_ifs <;> simp <;> first | linarith | (intro; linarith) | (constructor <;> linarith)
  · unfold gradeOf; split_ifs <;> simp <;> first | linarith | (intro; linarith) | (constructor <;> linarith)
  · unfold gradeOf; split_ifs <;> simp <;> linarith
  · norm_num [gradeOf]
  · norm_num [gradeOf]
  · norm_num [gradeOf]
  · exact ⟨_, calculateClick_withRows p rows, rfl⟩

/-- C4: for every count >= 1 read from the count field and every prior content of the
row container, generation leaves the container with exactly `count` rows, each the row
fragment with a subject-name field, an obtained field, a total field and a remove-row
control; the new content does not depend on the prior rows, and a further generation with count `c2` leaves
exactly `c2` rows, not the sum of the two requests. -/
theorem generator_row_count (p : Page) (c c2 : ℤ) (v2 : FieldValue)
    (hp : p.subjectCount.parseInt = some c) (hc : 1 ≤ c)
    (hv2 : v2.parseInt = some c2) (hc2 : 1 ≤ c2) :
    ((generateClick p).subjectRows.length : ℤ) = c ∧
    (∀ r ∈ (generateClick p).subjectRows, r = rowTemplate ∧
      (∃ e ∈ r.cells, e.tag = "input" ∧ e.name = "subject_name[]") ∧
      (∃ e ∈ r.cells, e.tag = "input" ∧ "obtained" ∈ e.classes) ∧
      (∃ e ∈ r.cells, e.tag = "input" ∧ "total" ∈ e.classes) ∧
      (∃ e ∈ r.cells, e.tag = "button" ∧ "remove-row" ∈ e.classes)) ∧
    (generateClick p).subjectRows = List.replicate c.toNat rowTemplate ∧
    (((generateClick { generateClick p with subjectCount := v2 }).subjectRows.length : ℤ)
      = c2) := by
  have h1 := StudentResult.generateClick_accept p c hp hc
  have h2 := StudentResult.generateClick_accept
    { generateClick p with subjectCount := v2 } c2 hv2 hc2
  have hmem : ∀ r ∈ (generateClick p).subjectRows, r = rowTemplate := by
    intro r hr
    rw [h1] at hr
    exact List.eq_of_mem_replicate hr
  refine ⟨?_, ?_, ?_, ?_⟩
  · rw [h1]
    simp only [List.length_replicate]
    omega
  · intro r hr
    have hr2 := hmem r hr
    subst hr2
    refine ⟨rfl, ?_, ?_, ?_, ?_⟩ <;> simp [rowTemplate, SubjectRow.toTr]
  · rw [h1]
  · rw [h2]
    simp only [List.length_replicate]
    omega

theorem generator_row_count_witness :
    (⟨FieldValue.ofRat 3, [⟨[]⟩], Display.str "", Display.str "", Display.str "",
        Display.str "", []⟩ : Page).subjectCount.parseInt = some 3 ∧
    (1 : ℤ) ≤ 3 ∧ (FieldValue.ofRat 2).parseInt = some 2 ∧ (1 : ℤ) ≤ 2 ∧
    ((generateClick ⟨FieldValue.ofRat 3, [⟨[]⟩], Display.str "", Display.str "",
        Display.str "", Display.str "", []⟩).subjectRows.length : ℤ) = 3 ∧
    (((generateClick { generateClick ⟨FieldValue.ofRat 3, [⟨[]⟩], Display.str "",
        Display.str "", Display.str "", Display.str "", []⟩ with
          subjectCount := FieldValue.ofRat 2 }).subjectRows.length : ℤ) = 2) :=
  have hp : (⟨FieldValue.ofRat 3, [⟨[]⟩], Display.str "", Display.str "", Display.str "",
      Display.str "", []⟩ : Page).subjectCount.parseInt = some 3 := by
    simp [FieldValue.ofRat]
  have hv : (FieldValue.ofRat 2).parseInt = some 2 := by
    simp [FieldValue.ofRat]
  have h := generator_row_count _ 3 2 _ hp (by norm_num) hv (by norm_num)
  ⟨hp, by norm_num, hv, by norm_num, h.1, h.2.2.2⟩

/-- C5: the generator rejects the request exactly when the count field reads as NaN or
as a count below 1. On rejection it shows the alert and changes nothing else (the row
container keeps its content); for a count that reads as an integer >= 1 it shows no
alert and replaces the content of the container by that many row fragments. -/
theorem generator_validation (p : Page) :
    (generateClick p = { p with alerts := p.alerts ++ [invalidCountMessage] } ↔
      (p.subjectCount.parseInt = none ∨
        ∃ n, p.subjectCount.parseInt = some n ∧ n < 1)) ∧
    (((p.subjectCount.parseInt = none ∨ ∃ n, p.subjectCount.parseInt = some n ∧ n < 1) ∧
        (generateClick p).alerts = p.alerts ++ [invalidCountMessage] ∧
        (generateClick p).subjectRows = p.subjectRows ∧
        (generateClick p).subjectCount = p.subjectCount) ∨
      (∃ n, p.subjectCount.parseInt = some n ∧ 1 ≤ n ∧
        (generateClick p).alerts = p.alerts ∧
        (generateClick p).subjectRows = List.replicate n.toNat rowTemplate)) := by
  by_cases h : p.subjectCount.parseInt = none ∨
      ∃ n, p.subjectCount.parseInt = some n ∧ n < 1
  · have hr := StudentResult.generateClick_reject p h
    refine ⟨⟨fun _ => h, fun _ => hr⟩, Or.inl ⟨h, ?_, ?_, ?_⟩⟩ <;> rw [hr]
  · have hn : ∃ n, p.subjectCount.parseInt = some n ∧ 1 ≤ n := by
      cases hc : p.subjectCount.parseInt with
      | none => exact absurd (Or.inl hc) h
      | some n =>
        refine ⟨n, rfl, ?_⟩
        by_contra hlt
        exact h (Or.inr ⟨n, hc, by omega⟩)
    obtain ⟨n, hn, hn1⟩ := hn
    have ha := StudentResult.generateClick_accept p n hn hn1
    refine ⟨⟨fun heq => ?_, fun hh => absurd hh h⟩, Or.inr ⟨n, hn, hn1, ?_, ?_⟩⟩
    · exfalso
      have h1 : (generateClick p).alerts = p.alerts ++ [invalidCountMessage] := by rw [heq]
      rw [ha] at h1
      simp at h1
    · rw [ha]
    · rw [ha]

/-- C6: aggregation is idempotent. For every page, a second click on calculate leaves
the page exactly as the first click left it (so the four output fields agree), and the
click changes neither the rows with their obtained and total inputs nor the count
field. -/
theorem aggregation_idempotent (p : Page) :
    afterCalculate (afterCalculate p) = afterCalculate p ∧
    (calculateClick p >>= calculateClick) = calculateClick p ∧
    (afterCalculate p).subjectRows = p.subjectRows ∧
    (afterCalculate p).subjectCount = p.subjectCount := by
  cases h : aggregate (querySelectorAll "obtained" p) (querySelectorAll "total" p) with
  | error e =>
    have hc : calculateClick p = Except.error e := by simp only [calculateClick, h]
    have ha : afterCalculate p = p := by simp only [afterCalculate, hc]
    refine ⟨by rw [ha, ha], by rw [hc]; rfl, by rw [ha], by rw [ha]⟩
  | ok a =>
    have hc : calculateClick p = Except.ok (writeOutputs p a) := by
      simp only [calculateClick, h]
    have hq : ∀ cls, querySelectorAll cls (writeOutputs p a) = querySelectorAll cls p :=
      fun _ => rfl
    have hc2 : calculateClick (writeOutputs p a) = Except.ok (writeOutputs p a) := by
      simp only [calculateClick, hq, h]
      rfl
    have ha : afterCalculate p = writeOutputs p a := by simp only [afterCalculate, hc]
    have ha2 : afterCalculate (writeOutputs p a) = writeOutputs p a := by
      simp only [afterCalculate, hc2]
    refine ⟨by rw [ha, ha2], ?_, by rw [ha]; rfl, by rw [ha]; rfl⟩
    rw [hc]
    exact hc2

/-- C7, as stated, fails: with two banners of which the first one's close action
raises, the close action is never invoked on the second. -/
theorem reaper_isolation_counterexample :
    ¬ (∀ bs : List Banner, (∃ b ∈ bs, b.closeThrows = true) →
        ∀ b ∈ bs, b.ident ∈ (closeAll bs).1) := by
  intro h
  have hex : ∃ b ∈ [(⟨0, true⟩ : Banner), ⟨1, false⟩], b.closeThrows = true :=
    ⟨⟨0, true⟩, List.mem_cons_self _ _, rfl⟩
  have h1 := h [(⟨0, true⟩ : Banner), ⟨1, false⟩] hex (⟨1, false⟩ : Banner) (by simp)
  simp [closeAll] at h1

/-- C7, amended: when the timer fires, the close action is invoked on the banners in
enumeration order up to and including the first one whose close action raises, and on
no banner after it, the exception leaving the callback; when no close action raises it
is invoked on every banner. -/
theorem reaper_stops_at_first_failure (before after : List Banner) (b : Banner)
    (h : ∀ x ∈ before, x.closeThrows = false) (hb : b.closeThrows = true) :
    closeAll (before ++ b :: after) =
      ((before ++ [b]).map Banner.ident, some (JSError.closeFailed b.ident)) ∧
    closeAll before = (before.map Banner.ident, none) :=
  ⟨StudentResult.closeAll_first_failure before b after h hb,
    StudentResult.closeAll_of_no_failure before h⟩

theorem reaper_stops_at_first_failure_witness :
    (∀ x ∈ [(⟨0, false⟩ : Banner), ⟨1, false⟩], x.closeThrows = false) ∧
    (⟨2, true⟩ : Banner).closeThrows = true ∧
    closeAll ([(⟨0, false⟩ : Banner), ⟨1, false⟩] ++
        (⟨2, true⟩ : Banner) :: [⟨3, false⟩, ⟨4, true⟩]) =
      (([(⟨0, false⟩ : Banner), ⟨1, false⟩] ++ [(⟨2, true⟩ : Banner)]).map Banner.ident,
        some (JSError.closeFailed (⟨2, true⟩ : Banner).ident)) ∧
    closeAll [⟨0, false⟩, ⟨1, false⟩] =
      ([(⟨0, false⟩ : Banner), ⟨1, false⟩].map Banner.ident, none) :=
  have h : ∀ x ∈ [(⟨0, false⟩ : Banner), ⟨1, false⟩], x.closeThrows = false := by
    intro x hx
    simp at hx
    rcases hx with hx | hx <;> rw [hx]
  ⟨h, rfl, reaper_stops_at_first_failure _ [⟨3, false⟩, ⟨4, true⟩] ⟨2, true⟩ h rfl⟩

